import Mathlib

/-!
Verification development for the repository semantic-tiles, file
src/backend/app/core/semantic_processor.py.

Modelling conventions.  The external collaborators (PyPDF2 text
extraction wrapped by the method extract_text_from_pdf, the OpenAI
embeddings endpoint, and the OpenAI chat-completions endpoint) are
oracle fields of the SemanticProcessor record; they are deterministic
functions, which models one fixed behaviour of the remote services.
The mutable per-instance state, namely the embeddings_cache dictionary,
is threaded explicitly through a ProcState record, together with call
counters for each collaborator so that claims about the number of
collaborator calls can be stated.  Embedding vectors are lists of
rationals, distances are real numbers.  Python exceptions that escape
an inner expression are modelled with Except.
-/

/-- One element of the items argument of compute_distances: a Python
dictionary with the keys id and name, and the optional keys description
and documentPath.  A key that is absent is modelled as none; a key that
is present with an empty string is modelled as some of the empty
string (both are falsy in Python, and the code only tests truthiness). -/
structure Item where
  id : String
  name : String
  description : Option String := none
  documentPath : Option String := none
  deriving DecidableEq

/-- The immutable configuration of one SemanticProcessor instance, as
set up by SemanticProcessor.init: the upload folder, the value of the
OPENAI_API_KEY environment variable at construction time (none when the
variable was absent), and the three external collaborators.  The field
extract models the whole method extract_text_from_pdf, which never
raises: it returns the extracted text, or the empty string when
extraction fails.  The field embed models one call of
client.embeddings.create followed by np.array on the response: none
models a raised provider error.  The field complete models one call of
client.chat.completions.create with the given model name, system
message, user message, temperature and max_tokens: an error value
carries the message text of the raised exception. -/
structure SemanticProcessor where
  upload_folder : String
  openai_api_key : Option String
  extract : String → String
  embed : String → Option (List ℚ)
  complete : String → String → String → ℚ → Nat → Except String String

/-- The mutable state of one SemanticProcessor instance: the
embeddings_cache dictionary as an association list in insertion order,
plus call counters for the three collaborators. -/
structure ProcState where
  cache : List (String × List ℚ)
  extractCalls : Nat
  embedCalls : Nat
  completeCalls : Nat
  deriving DecidableEq

/-- The state of a freshly constructed SemanticProcessor: the
constructor sets embeddings_cache to the empty dictionary and no
collaborator has been called yet. -/
def initState : ProcState := ⟨[], 0, 0, 0⟩

/-- Models os.path.join of two path segments as used by the code: an
absolute second segment replaces the first, otherwise the segments are
joined with a single separator. -/
def path_join (a b : String) : String :=
  if b.startsWith ("/") then b
  else if a = "" then b
  else if a.endsWith ("/") then a ++ b
  else a ++ ("/") ++ b

/-- Models os.path.basename: the part of the path after the last
separator. -/
def basename (p : String) : String := (p.splitOn ("/")).getLastD ""

/-- Models the Python truthiness test applied to the optional api key:
both None and the empty string are falsy. -/
def key_falsy : Option String → Bool
  | none => true
  | some k => k == ""

/-- One call of the method extract_text_from_pdf (source lines 162 to
181): the PyPDF2 interaction is the external collaborator P.extract,
which already absorbs its own failures into the empty string.  The
extractor call counter is incremented. -/
def extract_text_from_pdf (P : SemanticProcessor) (s : ProcState) (pdf_path : String) :
    String × ProcState :=
  (P.extract pdf_path, { s with extractCalls := s.extractCalls + 1 })

/-- One call of the method with source name prefixed by an underscore,
get_text_embedding (source lines 218 to 237): the text is truncated to
8191 characters and sent to the embeddings endpoint; a provider error
is absorbed into none by the try block.  The provider call counter is
incremented. -/
def get_text_embedding (P : SemanticProcessor) (s : ProcState) (text : String) :
    Option (List ℚ) × ProcState :=
  (P.embed (text.take 8191), { s with embedCalls := s.embedCalls + 1 })

/-- One call of the chat completions endpoint through the try blocks of
get_document_summary and process_document_query.  The completion call
counter is incremented. -/
def call_chat_completion (P : SemanticProcessor) (s : ProcState)
    (model sys user : String) (temperature : ℚ) (maxTokens : Nat) :
    Except String String × ProcState :=
  (P.complete model sys user temperature maxTokens,
   { s with completeCalls := s.completeCalls + 1 })

/-- The cache key of source line 194: the string doc: followed by the
document path. -/
def doc_key (document_path : String) : String := ("doc:") ++ document_path

/-- The composed summary string of source line 206: a fixed label, the
basename of the document path, a fixed separator and the first 2000
characters of the extracted text. -/
def doc_summary_text (document_path text : String) : String :=
  ("Document: ") ++ basename document_path ++ ("\n\nContent: ") ++ text.take 2000

/-- One call of the document-embedding method (source lines 183 to 216).
On a cache hit the cached vector is returned with no extraction and no
provider call; on a miss the document text is extracted, an empty
extraction yields none, and otherwise the composed summary string is
embedded and a successful embedding is stored in the cache before being
returned. -/
def get_document_embedding (P : SemanticProcessor) (s : ProcState) (document_path : String) :
    Option (List ℚ) × ProcState :=
  match s.cache.lookup (doc_key document_path) with
  | some v => (some v, s)
  | none =>
    let r1 := extract_text_from_pdf P s (path_join P.upload_folder document_path)
    if r1.1 = "" then (none, r1.2)
    else
      let r2 := get_text_embedding P r1.2 (doc_summary_text document_path r1.1)
      match r2.1 with
      | some e => (some e, { r2.2 with cache := r2.2.cache ++ [(doc_key document_path, e)] })
      | none => (none, r2.2)

/-- Models the Python expression applying not to the variable embedding
at source line 63, where embedding is either None or a numpy array.
Python negation of None is True.  For a numpy array, bool of an empty
array is False (numpy 1.x behaviour, a DeprecationWarning), bool of a
one-element array is the truthiness of its single element, and bool of
an array with two or more elements raises ValueError; the error case is
the Except.error value. -/
def py_not_embedding : Option (List ℚ) → Except Unit Bool
  | none => Except.ok true
  | some [] => Except.ok true
  | some [x] => Except.ok (decide (x = 0))
  | some (_ :: _ :: _) => Except.error ()

/-- The fallback text for an item (source lines 64 to 66): the name,
extended by a colon, a space and the description when the description
key is present and truthy. -/
def item_text (it : Item) : String :=
  it.name ++
    match it.description with
    | some d => if d = "" then "" else (": ") ++ d
    | none => ""

/-- The document phase of the per-item loop (source lines 56 to 61):
the embedding variable starts as None, and when the documentPath key is
present and truthy it is assigned the result of the document-embedding
method.  The argument is the documentPath field of the item. -/
def doc_phase (P : SemanticProcessor) (s : ProcState) :
    Option String → Option (List ℚ) × ProcState
  | some dp =>
    if dp = "" then ((none : Option (List ℚ)), s) else get_document_embedding P s dp
  | none => ((none : Option (List ℚ)), s)

/-- The body of the per-item loop of compute_distances (source lines 55
to 67): the document phase runs first; then the truthiness of the
intermediate embedding variable is tested with the Python expression of
line 63, which can raise; when that test is true the name and
description fallback text is embedded instead. -/
def resolve_item_embedding (P : SemanticProcessor) (s : ProcState) (it : Item) :
    Except Unit (Option (List ℚ)) × ProcState :=
  match py_not_embedding (doc_phase P s it.documentPath).1 with
  | Except.error e => (Except.error e, (doc_phase P s it.documentPath).2)
  | Except.ok true =>
    (Except.ok (get_text_embedding P (doc_phase P s it.documentPath).2 (item_text it)).1,
     (get_text_embedding P (doc_phase P s it.documentPath).2 (item_text it)).2)
  | Except.ok false =>
    (Except.ok (doc_phase P s it.documentPath).1, (doc_phase P s it.documentPath).2)

/-- Assignment into the Python dictionary item_embeddings: an existing
key keeps its position and gets the new value, a new key is appended. -/
def dict_insert (m : List (String × List ℚ)) (k : String) (v : List ℚ) :
    List (String × List ℚ) :=
  if (m.lookup k).isSome then m.map (fun p => if p.1 = k then (k, v) else p)
  else m ++ [(k, v)]

/-- The full item-resolution loop of compute_distances (source lines 54
to 72), building the item_embeddings dictionary in iteration order.  An
item whose resolution yields None is skipped with a logged warning; a
raised exception aborts the loop and propagates. -/
def resolve_embeddings (P : SemanticProcessor) :
    List Item → ProcState → List (String × List ℚ) →
    Except Unit (List (String × List ℚ)) × ProcState
  | [], s, acc => (Except.ok acc, s)
  | it :: rest, s, acc =>
    match resolve_item_embedding P s it with
    | (Except.error e, s1) => (Except.error e, s1)
    | (Except.ok none, s1) => resolve_embeddings P rest s1 acc
    | (Except.ok (some v), s1) => resolve_embeddings P rest s1 (dict_insert acc it.id v)

/-- The dot product np.dot of two vectors of equal length. -/
def dot_product (a b : List ℚ) : ℚ := (List.zipWith (fun x y => x * y) a b).sum

/-- The squared Euclidean norm of a vector; np.linalg.norm is its
square root. -/
def norm_sq (a : List ℚ) : ℚ := (a.map (fun x => x * x)).sum

/-- The similarity expression of source line 252: the dot product
divided by the product of the two Euclidean norms. -/
noncomputable def cosine_sim (a b : List ℚ) : ℝ :=
  (dot_product a b : ℝ) / (Real.sqrt (norm_sq a : ℝ) * Real.sqrt (norm_sq b : ℝ))

/-- The method with source name prefixed by an underscore,
compute_distance (source lines 239 to 257).  Mismatched dimensions make
np.dot raise ValueError, absorbed into the maximal distance 1 by the
except block.  When both norms are nonzero the code returns the clamp
of one minus the similarity into the unit interval.  When a norm is
zero, numpy division yields nan without raising, the dot product is
then also zero in exact arithmetic, and the Python expression max of 0
and min of 1 and 1 minus nan evaluates to 1 because both comparisons
with nan are false; this nan path is modelled by the explicit
zero-denominator branch returning 1. -/
noncomputable def compute_distance (a b : List ℚ) : ℝ :=
  if a.length ≠ b.length then 1
  else if norm_sq a * norm_sq b = 0 then 1
  else max 0 (min 1 (1 - cosine_sim a b))

/-- The pairwise loop of compute_distances (source lines 74 to 80): for
the i-th key of the item_embeddings dictionary, a distance entry is
produced against every later key, in order. -/
noncomputable def pair_distances : List (String × List ℚ) → List ((String × String) × ℝ)
  | [] => []
  | (id1, e1) :: rest =>
    rest.map (fun p => ((id1, p.1), compute_distance e1 p.2)) ++ pair_distances rest

set_option linter.unusedVariables false in
/-- The public method compute_distances (source lines 38 to 86).  The
level_id argument is accepted and never read.  The whole body is inside
one try block: an exception raised during resolution is absorbed into
the empty table, with the state mutations made before the exception
kept, matching the in-place mutation of the cache. -/
noncomputable def compute_distances (P : SemanticProcessor) (items : List Item)
    (level_id : Option String) (s : ProcState) :
    List ((String × String) × ℝ) × ProcState :=
  match resolve_embeddings P items s [] with
  | (Except.ok m, s1) => (pair_distances m, s1)
  | (Except.error _, s1) => ([], s1)

/-- The public method get_document_summary (source lines 88 to 121):
extract the document text, answer a fixed message when the extraction
is empty, otherwise forward the first 5000 characters to the chat
completion collaborator and return its text, or a descriptive error
string when the collaborator raises. -/
def get_document_summary (P : SemanticProcessor) (s : ProcState) (document_path : String) :
    String × ProcState :=
  let r1 := extract_text_from_pdf P s (path_join P.upload_folder document_path)
  if r1.1 = "" then (("Could not extract text from document"), r1.2)
  else
    let r2 := call_chat_completion P r1.2 ("gpt-4")
      ("You are a helpful assistant that provides concise document summaries.")
      (("Please provide a short summary (maximum 200 words) of the following document:\n\n")
        ++ r1.1.take 5000 ++ ("..."))
      (7 / 10) 250
    match r2.1 with
    | Except.ok content => (content, r2.2)
    | Except.error msg => (("Error summarizing document: ") ++ msg, r2.2)

/-- The public method process_document_query (source lines 123 to 160):
a falsy api key short-circuits into a fixed message before any
extraction; otherwise the document text is extracted, an empty
extraction yields a fixed message, and otherwise the first 4000
characters and the query are forwarded to the chat completion
collaborator. -/
def process_document_query (P : SemanticProcessor) (s : ProcState)
    (document_path query : String) : String × ProcState :=
  if key_falsy P.openai_api_key then (("OpenAI API key not configured"), s)
  else
    let r1 := extract_text_from_pdf P s (path_join P.upload_folder document_path)
    if r1.1 = "" then (("Could not extract text from document"), r1.2)
    else
      let r2 := call_chat_completion P r1.2 ("gpt-4")
        ("You are a helpful assistant explaining concepts from documents.")
        (("Based on this document content:\n\n") ++ r1.1.take 4000
          ++ ("...\n\nQuestion: ") ++ query)
        (7 / 10) 500
      match r2.1 with
      | Except.ok content => (content, r2.2)
      | Except.error msg => (("Error processing query: ") ++ msg, r2.2)

/-! Concrete collaborator behaviours and item lists used to evaluate
the model on closed inputs.  Each oracle is a constant function, which
makes kernel evaluation immediate. -/

/-- A processor whose extractor always yields the text hello and whose
embedding provider always yields the two-dimensional vector with
entries 1 and 2, the shape every real OpenAI embedding has (the real
ones have 1536 entries). -/
def procDoc : SemanticProcessor :=
  ⟨"uploads", some ("sk-test"), fun _ => "hello", fun _ => some [1, 2],
   fun _ _ _ _ _ => Except.ok "ok"⟩

/-- Two items, both backed by documents that extract and embed
successfully. -/
def docItemsPair : List Item :=
  [⟨"a", "A", none, some ("a.pdf")⟩, ⟨"b", "B", none, some ("b.pdf")⟩]

/-- A single document-backed item. -/
def docItemSolo : List Item := [⟨"z", "Z", none, some ("z.pdf")⟩]

/-- Two plain text items followed by one document-backed item. -/
def mixedItems : List Item :=
  [⟨"d", "D", none, none⟩, ⟨"e", "E", none, none⟩, ⟨"c", "C", none, some ("c.pdf")⟩]

/-- A processor whose embedding provider always yields the
one-dimensional vector with entry 1. -/
def procText : SemanticProcessor :=
  ⟨"uploads", some ("sk-test"), fun _ => "", fun _ => some [1],
   fun _ _ _ _ _ => Except.ok "ok"⟩

/-- Two plain text items with no documents. -/
def textItemsPair : List Item := [⟨"a", "Cat", none, none⟩, ⟨"b", "Dog", none, none⟩]

/-- One document-backed item for observing the cache contents. -/
def docItemG : List Item := [⟨"g", "G", none, some ("p.pdf")⟩]

/-- A processor for exercising the document-embedding cache. -/
def procCache : SemanticProcessor :=
  ⟨"uploads", some ("sk-test"), fun _ => "hello", fun _ => some [5, 6],
   fun _ _ _ _ _ => Except.ok "ok"⟩

/-- A processor whose extractor always fails, yielding the empty
string. -/
def procEmptyExtract : SemanticProcessor :=
  ⟨"uploads", some ("sk-test"), fun _ => "", fun _ => none,
   fun _ _ _ _ _ => Except.ok "ok"⟩

/-- A processor constructed while the OPENAI_API_KEY environment
variable was absent. -/
def procNoKey : SemanticProcessor :=
  ⟨"uploads", none, fun _ => "text", fun _ => some [1],
   fun _ _ _ _ _ => Except.ok "ok"⟩

/-! Helper lemmas about the cosine-distance routine. -/

/-- The dot product is symmetric. -/
theorem dot_product_comm (a b : List ℚ) : dot_product a b = dot_product b a := by
  unfold dot_product
  rw [List.zipWith_comm_of_comm _ mul_comm]

/-- The similarity expression is symmetric. -/
theorem cosine_sim_comm (a b : List ℚ) : cosine_sim a b = cosine_sim b a := by
  unfold cosine_sim
  rw [dot_product_comm, mul_comm]

/-- Every value of the cosine-distance routine lies in the closed unit
interval. -/
theorem compute_distance_unit (a b : List ℚ) :
    0 ≤ compute_distance a b ∧ compute_distance a b ≤ 1 := by
  unfold compute_distance
  split_ifs with h1 h2
  · exact ⟨zero_le_one, le_refl 1⟩
  · exact ⟨zero_le_one, le_refl 1⟩
  · exact ⟨le_max_left 0 _, max_le zero_le_one (min_le_left 1 _)⟩

/-- Every value stored by the pairwise loop is a value of the
cosine-distance routine. -/
theorem pair_distances_mem (m : List (String × List ℚ)) (kv : (String × String) × ℝ)
    (h : kv ∈ pair_distances m) : ∃ e1 e2, kv.2 = compute_distance e1 e2 := by
  induction m with
  | nil => simp [pair_distances] at h
  | cons p rest ih =>
    obtain ⟨id1, e1⟩ := p
    simp only [pair_distances] at h
    rcases List.mem_append.mp h with h1 | h2
    · obtain ⟨q, hq, rfl⟩ := List.mem_map.mp h1
      exact ⟨e1, q.2, rfl⟩
    · exact ih h2

/-! Equation lemmas for the four control-flow paths of the
document-embedding method. -/

/-- A cache hit returns the cached vector and leaves the state
untouched. -/
theorem get_document_embedding_hit (P : SemanticProcessor) (s : ProcState)
    (dp : String) (v : List ℚ) (hhit : s.cache.lookup (doc_key dp) = some v) :
    get_document_embedding P s dp = (some v, s) := by
  unfold get_document_embedding
  rw [hhit]

/-- A cache miss with empty extraction returns none after exactly one
extractor call. -/
theorem get_document_embedding_empty (P : SemanticProcessor) (s : ProcState) (dp : String)
    (hmiss : s.cache.lookup (doc_key dp) = none)
    (hext : P.extract (path_join P.upload_folder dp) = "") :
    get_document_embedding P s dp = (none, { s with extractCalls := s.extractCalls + 1 }) := by
  unfold get_document_embedding
  rw [hmiss]
  simp only [extract_text_from_pdf]
  rw [if_pos hext]

/-- A cache miss with a failing provider returns none after one
extractor call and one provider call, and does not touch the cache. -/
theorem get_document_embedding_fail (P : SemanticProcessor) (s : ProcState) (dp : String)
    (hmiss : s.cache.lookup (doc_key dp) = none)
    (hext : P.extract (path_join P.upload_folder dp) ≠ "")
    (hemb : P.embed ((doc_summary_text dp (P.extract (path_join P.upload_folder dp))).take 8191)
      = none) :
    get_document_embedding P s dp =
      (none, { s with extractCalls := s.extractCalls + 1, embedCalls := s.embedCalls + 1 }) := by
  unfold get_document_embedding
  rw [hmiss]
  simp only [extract_text_from_pdf, get_text_embedding]
  rw [if_neg hext, hemb]

/-- A cache miss with successful extraction and a successful provider
returns the embedding after one extractor call and one provider call,
appending it to the cache under the document key. -/
theorem get_document_embedding_store (P : SemanticProcessor) (s : ProcState) (dp : String)
    (e : List ℚ) (hmiss : s.cache.lookup (doc_key dp) = none)
    (hext : P.extract (path_join P.upload_folder dp) ≠ "")
    (hemb : P.embed ((doc_summary_text dp (P.extract (path_join P.upload_folder dp))).take 8191)
      = some e) :
    get_document_embedding P s dp =
      (some e,
       { s with
          cache := s.cache ++ [(doc_key dp, e)]
          extractCalls := s.extractCalls + 1
          embedCalls := s.embedCalls + 1 }) := by
  unfold get_document_embedding
  rw [hmiss]
  simp only [extract_text_from_pdf, get_text_embedding]
  rw [if_neg hext, hemb]

/-! Helper lemmas tracing every cache entry back to a document key. -/

/-- Every cache entry after a document-embedding call was already
present or carries the document key of that call. -/
theorem get_document_embedding_cache (P : SemanticProcessor) (s : ProcState) (dp : String)
    (kv : String × List ℚ) (h : kv ∈ (get_document_embedding P s dp).2.cache) :
    kv ∈ s.cache ∨ kv.1 = doc_key dp := by
  cases hL : s.cache.lookup (doc_key dp) with
  | some v =>
    rw [get_document_embedding_hit P s dp v hL] at h
    exact Or.inl h
  | none =>
    by_cases hext : P.extract (path_join P.upload_folder dp) = ""
    · rw [get_document_embedding_empty P s dp hL hext] at h
      exact Or.inl h
    · cases hemb : P.embed ((doc_summary_text dp
          (P.extract (path_join P.upload_folder dp))).take 8191) with
      | none =>
        rw [get_document_embedding_fail P s dp hL hext hemb] at h
        exact Or.inl h
      | some e =>
        rw [get_document_embedding_store P s dp e hL hext hemb] at h
        rcases List.mem_append.mp h with h1 | h2
        · exact Or.inl h1
        · rw [List.mem_singleton.mp h2]
          exact Or.inr rfl

/-- Every cache entry after the document phase of one item was already
present or carries the document key of that item. -/
theorem doc_phase_cache (P : SemanticProcessor) (s : ProcState) (odp : Option String)
    (kv : String × List ℚ) (h : kv ∈ (doc_phase P s odp).2.cache) :
    kv ∈ s.cache ∨ ∃ dp, odp = some dp ∧ kv.1 = doc_key dp := by
  cases odp with
  | none =>
    simp only [doc_phase] at h
    exact Or.inl h
  | some dp =>
    simp only [doc_phase] at h
    by_cases hdpz : dp = ""
    · rw [if_pos hdpz] at h
      exact Or.inl h
    · rw [if_neg hdpz] at h
      rcases get_document_embedding_cache P s dp kv h with h1 | h2
      · exact Or.inl h1
      · exact Or.inr ⟨dp, rfl, h2⟩

/-- Every cache entry after resolving one item was already present or
carries the document key of that item. -/
theorem resolve_item_embedding_cache (P : SemanticProcessor) (s : ProcState) (it : Item)
    (kv : String × List ℚ) (h : kv ∈ (resolve_item_embedding P s it).2.cache) :
    kv ∈ s.cache ∨ ∃ dp, it.documentPath = some dp ∧ kv.1 = doc_key dp := by
  unfold resolve_item_embedding at h
  have hmem : kv ∈ (doc_phase P s it.documentPath).2.cache := by
    split at h
    · exact h
    · simpa [get_text_embedding] using h
    · exact h
  exact doc_phase_cache P s it.documentPath kv hmem

/-- Every cache entry after the resolution loop was already present or
carries the document key of one of the items. -/
theorem resolve_embeddings_cache (P : SemanticProcessor) (items : List Item) :
    ∀ (s : ProcState) (acc : List (String × List ℚ)) (kv : String × List ℚ),
      kv ∈ (resolve_embeddings P items s acc).2.cache →
      kv ∈ s.cache ∨ ∃ it ∈ items, ∃ dp, it.documentPath = some dp ∧ kv.1 = doc_key dp := by
  induction items with
  | nil =>
    intro s acc kv h
    exact Or.inl h
  | cons it rest ih =>
    intro s acc kv h
    simp only [resolve_embeddings] at h
    rcases hr : resolve_item_embedding P s it with ⟨res, s1⟩
    rw [hr] at h
    have hstep : ∀ kv2 : String × List ℚ, kv2 ∈ s1.cache →
        kv2 ∈ s.cache ∨ ∃ dp, it.documentPath = some dp ∧ kv2.1 = doc_key dp := by
      intro kv2 hkv2
      exact resolve_item_embedding_cache P s it kv2 (by rw [hr]; exact hkv2)
    cases res with
    | error e =>
      rcases hstep kv h with h1 | ⟨dp, hdp, hk⟩
      · exact Or.inl h1
      · exact Or.inr ⟨it, List.mem_cons_self it rest, dp, hdp, hk⟩
    | ok emb =>
      cases emb with
      | none =>
        rcases ih s1 acc kv h with h1 | ⟨it2, hit2, dp, hdp, hk⟩
        · rcases hstep kv h1 with h2 | ⟨dp, hdp, hk⟩
          · exact Or.inl h2
          · exact Or.inr ⟨it, List.mem_cons_self it rest, dp, hdp, hk⟩
        · exact Or.inr ⟨it2, List.mem_cons_of_mem it hit2, dp, hdp, hk⟩
      | some v =>
        rcases ih s1 (dict_insert acc it.id v) kv h with h1 | ⟨it2, hit2, dp, hdp, hk⟩
        · rcases hstep kv h1 with h2 | ⟨dp, hdp, hk⟩
          · exact Or.inl h2
          · exact Or.inr ⟨it, List.mem_cons_self it rest, dp, hdp, hk⟩
        · exact Or.inr ⟨it2, List.mem_cons_of_mem it hit2, dp, hdp, hk⟩

/-- Every cache entry after a full compute_distances call was already
present or carries the document key of one of the items; in particular
no cache key depends on the level_id argument. -/
theorem compute_distances_cache (P : SemanticProcessor) (items : List Item)
    (lid : Option String) (s : ProcState) (kv : String × List ℚ)
    (h : kv ∈ (compute_distances P items lid s).2.cache) :
    kv ∈ s.cache ∨ ∃ it ∈ items, ∃ dp, it.documentPath = some dp ∧ kv.1 = doc_key dp := by
  unfold compute_distances at h
  rcases hr : resolve_embeddings P items s [] with ⟨res, s1⟩
  rw [hr] at h
  have hm : kv ∈ s1.cache := by cases res <;> exact h
  exact resolve_embeddings_cache P items s [] kv (by rw [hr]; exact hm)

/-! Claim theorems. -/

/-- C1.  The claim states that an item whose documentPath is present
and whose document embedding resolves to a non-empty vector takes no
fallback and is included in the Distance Table under its id.  The code
violates this: with two document-backed items whose document embeddings
resolve successfully to the two-dimensional vector with entries 1 and
2, the Python truthiness test of line 63 raises ValueError on the
multi-element array, the top-level handler absorbs the exception, and
compute_distances returns the empty table, so neither item appears
under its id.  The first conjunct certifies that the document embedding
itself resolves successfully. -/
theorem compute_distances_drops_successful_doc_items :
    (get_document_embedding procDoc initState ("a.pdf")).1 = some [1, 2] ∧
    (compute_distances procDoc docItemsPair none initState).1 = [] :=
  ⟨rfl, rfl⟩

/-- C2.  compute_distances never raises to its caller: whenever the
resolution loop raises, the top-level handler converts the outcome into
the empty table, and otherwise the table of the successful run is
returned; the function is total by construction. -/
theorem compute_distances_absorbs (P : SemanticProcessor) (items : List Item)
    (level_id : Option String) (s : ProcState) :
    ((resolve_embeddings P items s []).1 = Except.error () →
      (compute_distances P items level_id s).1 = []) ∧
    (∀ m, (resolve_embeddings P items s []).1 = Except.ok m →
      (compute_distances P items level_id s).1 = pair_distances m) := by
  unfold compute_distances
  rcases hr : resolve_embeddings P items s [] with ⟨res, s1⟩
  constructor
  · intro he
    cases res with
    | error e => rfl
    | ok m => simp at he
  · intro m hm
    cases res with
    | error e => simp at hm
    | ok m0 =>
      have : m0 = m := by simpa using hm
      rw [this]

/-- Witness for C2: a run whose resolution loop raises on the
truthiness test still returns a table, the empty one. -/
theorem compute_distances_absorbs_witness :
    (compute_distances procDoc docItemSolo none initState).1 = [] :=
  (compute_distances_absorbs procDoc docItemSolo none initState).1 rfl

/-- C3.  Every value of the cosine-distance routine lies in the closed
unit interval, whatever the raw similarity is, and consequently every
value of every produced Distance Table lies in the closed unit
interval. -/
theorem compute_distance_unit_interval :
    (∀ a b : List ℚ, 0 ≤ compute_distance a b ∧ compute_distance a b ≤ 1) ∧
    (∀ (P : SemanticProcessor) (items : List Item) (lid : Option String) (s : ProcState)
      (kv : (String × String) × ℝ), kv ∈ (compute_distances P items lid s).1 →
      0 ≤ kv.2 ∧ kv.2 ≤ 1) := by
  refine ⟨compute_distance_unit, ?_⟩
  intro P items lid s kv h
  unfold compute_distances at h
  rcases hr : resolve_embeddings P items s [] with ⟨res, s1⟩
  rw [hr] at h
  cases res with
  | error e => exact absurd h (List.not_mem_nil kv)
  | ok m =>
    obtain ⟨e1, e2, hkv⟩ := pair_distances_mem m kv h
    rw [hkv]
    exact compute_distance_unit e1 e2

/-- Witness for C3: the single entry of a concrete produced table lies
in the unit interval. -/
theorem compute_distance_unit_interval_witness :
    0 ≤ (((("a", "b"), compute_distance [1] [1]) : (String × String) × ℝ)).2 ∧
    (((("a", "b"), compute_distance [1] [1]) : (String × String) × ℝ)).2 ≤ 1 :=
  compute_distance_unit_interval.2 procText textItemsPair none initState
    (("a", "b"), compute_distance [1] [1])
    (show _ ∈ [((("a", "b") : String × String), compute_distance [1] [1])] from
      List.mem_singleton.mpr rfl)

/-- C4.  The claim states that with n items of which exactly k resolve
to embeddings the table has exactly k times k minus 1 over 2 entries
and that a failed item is merely excluded.  The code violates this: in
the run below all three items resolve to embeddings (the first two
conjuncts certify that the text path and the document path both
succeed), so the claim demands three entries, but the truthiness test
of line 63 raises on the successfully embedded third item and the whole
table comes back empty, discarding the two healthy items as well.  The
empty-input part of the claim does hold and is the fourth conjunct. -/
theorem compute_distances_pair_count_broken :
    (get_text_embedding procDoc initState (item_text ⟨"d", "D", none, none⟩)).1 = some [1, 2] ∧
    (get_document_embedding procDoc initState ("c.pdf")).1 = some [1, 2] ∧
    (compute_distances procDoc mixedItems none initState).1 = [] ∧
    (compute_distances procDoc [] none initState).1 = [] :=
  ⟨rfl, rfl, rfl, rfl⟩

/-- C5.  Starting from a fresh processor, a document-embedding request
that succeeds performs exactly one extractor call and one provider
call, and a second request for the same documentPath is answered from
the cache with the same embedding and an unchanged state, so the two
requests together still perform exactly one extractor call and one
provider call. -/
theorem document_embedding_cached_once (P : SemanticProcessor) (dp : String) (e : List ℚ)
    (h : (get_document_embedding P initState dp).1 = some e) :
    (get_document_embedding P initState dp).2.extractCalls = 1 ∧
    (get_document_embedding P initState dp).2.embedCalls = 1 ∧
    get_document_embedding P (get_document_embedding P initState dp).2 dp =
      (some e, (get_document_embedding P initState dp).2) := by
  have hmiss : initState.cache.lookup (doc_key dp) = none := rfl
  by_cases hext : P.extract (path_join P.upload_folder dp) = ""
  · rw [get_document_embedding_empty P initState dp hmiss hext] at h
    simp at h
  · cases hemb : P.embed ((doc_summary_text dp
        (P.extract (path_join P.upload_folder dp))).take 8191) with
    | none =>
      rw [get_document_embedding_fail P initState dp hmiss hext hemb] at h
      simp at h
    | some v =>
      have hstore := get_document_embedding_store P initState dp v hmiss hext hemb
      rw [hstore] at h ⊢
      obtain rfl : v = e := Option.some.inj h
      refine ⟨rfl, rfl, ?_⟩
      refine get_document_embedding_hit P _ dp v ?_
      simp [initState, List.lookup]

/-- Witness for C5 at a concrete processor and document path. -/
theorem document_embedding_cached_once_witness :
    (get_document_embedding procCache initState ("w.pdf")).2.extractCalls = 1 ∧
    (get_document_embedding procCache initState ("w.pdf")).2.embedCalls = 1 ∧
    get_document_embedding procCache (get_document_embedding procCache initState ("w.pdf")).2
        ("w.pdf") =
      (some [5, 6], (get_document_embedding procCache initState ("w.pdf")).2) :=
  document_embedding_cached_once procCache ("w.pdf") [5, 6] rfl

/-- C6.  Two compute_distances runs with identical items, state and
collaborators but different level_id arguments return identical results
(table and final state), and every cache entry after a run was either
already present or keyed by the string doc: followed by the
documentPath of one of the items, so level_id never enters any cache
key. -/
theorem compute_distances_level_id_independent :
    (∀ (P : SemanticProcessor) (items : List Item) (l1 l2 : Option String) (s : ProcState),
      compute_distances P items l1 s = compute_distances P items l2 s) ∧
    (∀ (P : SemanticProcessor) (items : List Item) (lid : Option String) (s : ProcState)
      (kv : String × List ℚ), kv ∈ (compute_distances P items lid s).2.cache →
      kv ∈ s.cache ∨ ∃ it ∈ items, ∃ dp, it.documentPath = some dp ∧ kv.1 = doc_key dp) :=
  ⟨fun _ _ _ _ _ => rfl, compute_distances_cache⟩

/-- Witness for C6: two concrete runs under different level ids agree,
and the one concrete cache entry produced is keyed by the document
path. -/
theorem compute_distances_level_id_independent_witness :
    compute_distances procDoc docItemG (some ("L1")) initState =
      compute_distances procDoc docItemG (some ("L2")) initState ∧
    ((("doc:p.pdf"), ([1, 2] : List ℚ)) ∈ initState.cache ∨
      ∃ it ∈ docItemG, ∃ dp, it.documentPath = some dp ∧
        ((("doc:p.pdf"), ([1, 2] : List ℚ))).1 = doc_key dp) :=
  ⟨compute_distances_level_id_independent.1 procDoc docItemG (some ("L1")) (some ("L2")) initState,
   compute_distances_level_id_independent.2 procDoc docItemG none initState (("doc:p.pdf"), [1, 2])
     (by decide)⟩

/-- C7.  When either vector has zero squared norm, or the dimensions
mismatch (the case where np.dot raises), the cosine-distance routine
returns exactly 1. -/
theorem compute_distance_degenerate_is_one (a b : List ℚ)
    (h : norm_sq a = 0 ∨ norm_sq b = 0 ∨ a.length ≠ b.length) :
    compute_distance a b = 1 := by
  unfold compute_distance
  by_cases hl : a.length ≠ b.length
  · rw [if_pos hl]
  · rw [if_neg hl]
    have hz : norm_sq a * norm_sq b = 0 := by
      rcases h with h | h | h
      · rw [h, zero_mul]
      · rw [h, mul_zero]
      · exact absurd h hl
    rw [if_pos hz]

/-- Witness for C7: a zero vector against a nonzero one, and a
dimension mismatch, both give distance 1. -/
theorem compute_distance_degenerate_is_one_witness :
    compute_distance [0, 0] [1, 2] = 1 ∧ compute_distance [1] [1, 2] = 1 :=
  ⟨compute_distance_degenerate_is_one [0, 0] [1, 2] (Or.inl (by norm_num [norm_sq])),
   compute_distance_degenerate_is_one [1] [1, 2] (Or.inr (Or.inr (by decide)))⟩

/-- C8.  The cosine-distance routine is symmetric on vectors of equal
dimension. -/
theorem compute_distance_symmetric (a b : List ℚ) (h : a.length = b.length) :
    compute_distance a b = compute_distance b a := by
  unfold compute_distance
  rw [cosine_sim_comm, mul_comm (norm_sq a), h]

/-- Witness for C8 at a concrete pair of vectors. -/
theorem compute_distance_symmetric_witness :
    compute_distance [1, 2] [3, 4] = compute_distance [3, 4] [1, 2] :=
  compute_distance_symmetric [1, 2] [3, 4] rfl

/-- C9.  When extraction for a document yields the empty result,
get_document_summary returns the fixed could-not-extract message and
performs no completion-provider call. -/
theorem summary_empty_extraction (P : SemanticProcessor) (s : ProcState) (dp : String)
    (h : P.extract (path_join P.upload_folder dp) = "") :
    (get_document_summary P s dp).1 = "Could not extract text from document" ∧
    (get_document_summary P s dp).2.completeCalls = s.completeCalls := by
  have heq : get_document_summary P s dp =
      (("Could not extract text from document"),
       { s with extractCalls := s.extractCalls + 1 }) := by
    unfold get_document_summary
    simp only [extract_text_from_pdf]
    rw [if_pos h]
  rw [heq]
  exact ⟨rfl, rfl⟩

/-- Witness for C9 at a processor whose extractor always fails. -/
theorem summary_empty_extraction_witness :
    (get_document_summary procEmptyExtract initState ("q.pdf")).1 =
      "Could not extract text from document" ∧
    (get_document_summary procEmptyExtract initState ("q.pdf")).2.completeCalls =
      initState.completeCalls :=
  summary_empty_extraction procEmptyExtract initState ("q.pdf") rfl

/-- C10.  A processor constructed while the api key environment
variable was absent answers every document query with the fixed
not-configured message and an unchanged state (no extraction, no
provider call), while get_document_summary has no such guard: it always
performs its extractor call, whatever the key. -/
theorem query_key_guard :
    (∀ (P : SemanticProcessor) (s : ProcState) (dp q : String), P.openai_api_key = none →
      process_document_query P s dp q = (("OpenAI API key not configured"), s)) ∧
    (∀ (P : SemanticProcessor) (s : ProcState) (dp : String),
      (get_document_summary P s dp).2.extractCalls = s.extractCalls + 1) := by
  constructor
  · intro P s dp q h
    unfold process_document_query
    rw [h]
    rfl
  · intro P s dp
    unfold get_document_summary
    by_cases hext : P.extract (path_join P.upload_folder dp) = ""
    · simp only [extract_text_from_pdf]
      rw [if_pos hext]
    · simp only [extract_text_from_pdf, call_chat_completion]
      rw [if_neg hext]
      split
      · rfl
      · rfl

/-- Witness for C10 at a keyless processor and concrete inputs. -/
theorem query_key_guard_witness :
    process_document_query procNoKey initState ("d.pdf") ("what") =
      (("OpenAI API key not configured"), initState) ∧
    (get_document_summary procNoKey initState ("d.pdf")).2.extractCalls =
      initState.extractCalls + 1 :=
  ⟨query_key_guard.1 procNoKey initState ("d.pdf") ("what") rfl,
   query_key_guard.2 procNoKey initState ("d.pdf")⟩
